import Mathlib

set_option maxRecDepth 100000

/-!
Verification development for the whatsapp-bot event-processing core.

The definitions below are a shallow embedding of the JavaScript sources:
  * `src/rate-limiter.js` (the `RateLimiter` class, second half of
    `src/src/database.js` in the source bundle),
  * `src/message-handler.js` (the `MessageHandler` class),
  * the trigger CRUD of `src/database.js` (`DatabaseManager`).

Modelling conventions:
  * JS timestamps (`Date.now()` milliseconds) are `Int`.
  * JS `Map` objects are association lists kept in insertion order;
    `Map.set` on an existing key replaces in place, on a fresh key appends.
  * JS string `<` compares UTF-16 code units lexicographically; `jsStrLt`
    reproduces that on code points (identical for the strings that occur).
  * JS `toLowerCase` is modelled with `Char.toLower`, which agrees with JS
    on ASCII; every string a claim exercises is ASCII.
  * Floating-point expressions (`count / limit >= 1.5`,
    `Math.floor(limit * threshold)`) are modelled by exact rational
    comparisons; at the default limits (20/100/500, 5/30/100, 10/50/200)
    the double computations are exact, so the models agree with JS.
-/

/-- JS lexicographic order on lists of code points (`<` on strings). -/
def jsStrLtL : List Char → List Char → Bool
  | [], [] => false
  | [], _ :: _ => true
  | _ :: _, [] => false
  | a :: as, b :: bs =>
    if a.val < b.val then true
    else if b.val < a.val then false
    else jsStrLtL as bs

/-- JS `a < b` on strings. -/
def jsStrLt (a b : String) : Bool := jsStrLtL a.data b.data

/-- Does `hay` start with `needle`? -/
def segLeads : List Char → List Char → Bool
  | _, [] => true
  | [], _ :: _ => false
  | a :: as, b :: bs => a == b && segLeads as bs

/-- Does `needle` occur contiguously somewhere in `hay`? -/
def segOccurs : List Char → List Char → Bool
  | [], needle => needle.isEmpty
  | a :: as, needle => segLeads (a :: as) needle || segOccurs as needle

/-- JS `String.prototype.includes`: the needle occurs contiguously in the
haystack. -/
def jsIncludes (hay needle : String) : Bool := segOccurs hay.data needle.data

/-- Lowercase one ASCII character (the fragment of JS `toLowerCase` that
the sources exercise). -/
def jsCharToLower (c : Char) : Char :=
  if 65 ≤ c.toNat ∧ c.toNat ≤ 90 then Char.ofNat (c.toNat + 32) else c

/-- JS `String.prototype.toLowerCase` (ASCII fragment). -/
def jsToLower (s : String) : String := ⟨s.data.map jsCharToLower⟩

/-- JS `s || t` for strings wrapped in `Option` (absent or empty falls back). -/
def jsOrS (a : Option String) (b : String) : String :=
  match a with
  | none => b
  | some s => if s == "" then b else s

/-- JS truthiness of an optional string (`undefined` and `""` are falsy). -/
def jsTruthyS (a : Option String) : Bool :=
  match a with
  | none => false
  | some s => s != ""

/-! ## RateLimiter (src/rate-limiter.js) -/

/-- One entry of the `violations` array built by `RateLimiter.checkLimits`:
`{ type, count, limit }`. -/
structure Violation where
  vtype : String
  count : Nat
  limit : Nat
deriving DecidableEq

/-- A value of the `blockedUsers` map set by `RateLimiter.handleViolations`. -/
structure BlockInfo where
  blockedAt : Int
  duration : Int
  reason : String
  violations : List Violation
  messageType : String
deriving DecidableEq

/-- A value of the `userLimits` map: three per-category timestamp logs plus
the warning bookkeeping. -/
structure UserData where
  messages : List Int
  media : List Int
  commands : List Int
  lastWarning : Int
  warningCount : Nat
deriving DecidableEq

/-- The fresh `userLimits` entry created on first contact. -/
def freshUserData : UserData :=
  { messages := [], media := [], commands := [], lastWarning := 0, warningCount := 0 }

/-- The three per-category timestamp arrays are indexed by the `limitKey`
strings `messages` / `media` / `commands` of the source. -/
inductive LimitKey | messages | media | commands
deriving DecidableEq

def UserData.log (ud : UserData) : LimitKey → List Int
  | .messages => ud.messages
  | .media => ud.media
  | .commands => ud.commands

def UserData.setLog (ud : UserData) : LimitKey → List Int → UserData
  | .messages, l => { ud with messages := l }
  | .media, l => { ud with media := l }
  | .commands, l => { ud with commands := l }

/-- One `this.limits[...]` record of the constructor. -/
structure CatLimits where
  perMinute : Nat
  perHour : Nat
  perDay : Nat
deriving DecidableEq

/-- Model of `this.limits` defaults from the `RateLimiter` constructor. -/
def limitsFor : LimitKey → CatLimits
  | .messages => { perMinute := 20, perHour := 100, perDay := 500 }
  | .media => { perMinute := 5, perHour := 30, perDay := 100 }
  | .commands => { perMinute := 10, perHour := 50, perDay := 200 }

/-- Model of `this.warningThresholds` as exact rationals (numerator, denominator):
messages 0.8, media 0.7, commands 0.9. -/
def warnThresholdFrac : LimitKey → Nat × Nat
  | .messages => (4, 5)
  | .media => (7, 10)
  | .commands => (9, 10)

/-- Model of `this.blockDurations` in milliseconds, keyed by severity name. -/
def blockDurations (sev : String) : Int :=
  if sev == "warning" then 0
  else if sev == "soft" then 5 * 60 * 1000
  else if sev == "hard" then 30 * 60 * 1000
  else if sev == "severe" then 2 * 60 * 60 * 1000
  else 0

/-- The whole mutable state of a `RateLimiter` instance (the `warnings` and
`globalLimits` maps are never read or written by the methods modelled here). -/
structure RLState where
  userLimits : List (String × UserData)
  blockedUsers : List (String × BlockInfo)
deriving DecidableEq

def rlInit : RLState := { userLimits := [], blockedUsers := [] }

/-- Model of `Map.set`: replace in place when the key exists, else append. -/
def mapSet {α : Type} (l : List (String × α)) (k : String) (v : α) : List (String × α) :=
  match l with
  | [] => [(k, v)]
  | (k0, v0) :: rest =>
    if k0 == k then (k0, v) :: rest else (k0, v0) :: mapSet rest k v

/-- Model of `Map.delete`. -/
def mapDel {α : Type} (l : List (String × α)) (k : String) : List (String × α) :=
  l.filter (fun p => p.1 != k)

/-- Model of `RateLimiter.getViolationSeverity`: the ratio `count / limit` mapped to a
severity name (exact rational comparison mirroring the float one). -/
def getViolationSeverity (v : Violation) : String :=
  if v.limit * 2 ≤ v.count then "severe"
  else if v.limit * 3 ≤ v.count * 2 then "hard"
  else if v.limit ≤ v.count then "soft"
  else "warning"

/-- The comparison `this.getViolationSeverity(v) > this.getViolationSeverity(max)`
of `handleViolations`: a JS `>` between severity NAMES, hence lexicographic. -/
def jsSevGt (v w : Violation) : Bool :=
  jsStrLt (getViolationSeverity w) (getViolationSeverity v)

/-- The `violations.reduce((max, v) => ... ? v : max)` of `handleViolations`
(JS `reduce` without seed: head is the seed, strict `>` keeps the earlier
element on ties). -/
def jsMaxViolation (v : Violation) (rest : List Violation) : Violation :=
  rest.foldl (fun m w => if jsSevGt w m then w else m) v

/-- Model of `RateLimiter.isBlocked`: looks the sender up, deletes an expired record
(lazy expiry) and answers; returns the possibly-updated state. -/
def isBlocked (st : RLState) (userJid : String) (now : Int) : Bool × RLState :=
  match st.blockedUsers.lookup userJid with
  | none => (false, st)
  | some bi =>
    if bi.blockedAt + bi.duration ≤ now then
      (false, { st with blockedUsers := mapDel st.blockedUsers userJid })
    else
      (true, st)

/-- Model of `RateLimiter.getBlockInfo`. -/
def getBlockInfo (st : RLState) (userJid : String) : Option BlockInfo :=
  st.blockedUsers.lookup userJid

/-- Model of `RateLimiter.cleanOldEntries`: keep only the trailing 24 hours of the
selected log. -/
def cleanOldEntries (ud : UserData) (lk : LimitKey) (now : Int) : UserData :=
  ud.setLog lk ((ud.log lk).filter (fun t => now - 24 * 60 * 60 * 1000 < t))

/-- Model of `RateLimiter.checkLimits`: the violations raised by the minute, hour and
day windows, in that order. -/
def checkLimits (ud : UserData) (lk : LimitKey) (lims : CatLimits) (now : Int) :
    List Violation :=
  let actions := ud.log lk
  let perMinute := (actions.filter (fun t => now - 60 * 1000 < t)).length
  let perHour := (actions.filter (fun t => now - 60 * 60 * 1000 < t)).length
  let perDay := (actions.filter (fun t => now - 24 * 60 * 60 * 1000 < t)).length
  (if lims.perMinute ≤ perMinute then
    [{ vtype := "perMinute", count := perMinute, limit := lims.perMinute }] else []) ++
  (if lims.perHour ≤ perHour then
    [{ vtype := "perHour", count := perHour, limit := lims.perHour }] else []) ++
  (if lims.perDay ≤ perDay then
    [{ vtype := "perDay", count := perDay, limit := lims.perDay }] else [])

/-- The decisions `canSendMessage` returns (the four JS result shapes). -/
inductive Decision
  /-- Model of `{ allowed: false, reason: blocked, blockInfo }` for an existing block. -/
  | blockedExisting (blockInfo : Option BlockInfo)
  /-- Model of `{ allowed: false, reason: blocked, severity, blockDuration, violations }`. -/
  | blockedNew (severity : String) (blockDuration : Int) (violations : List Violation)
  /-- Model of `{ allowed: true, warning }`. -/
  | allowedWarn (warning : String)
  /-- Model of `{ allowed: true }`. -/
  | allowed
deriving DecidableEq

/-- Model of `RateLimiter.handleViolations`: pick `maxViolation` by the JS reduce,
derive severity and duration from it, overwrite the block record. -/
def handleViolations (st : RLState) (userJid : String) (messageType : String)
    (now : Int) (v : Violation) (rest : List Violation) : Decision × RLState :=
  let maxViolation := jsMaxViolation v rest
  let severity := getViolationSeverity maxViolation
  let blockDuration := blockDurations severity
  let bi : BlockInfo :=
    { blockedAt := now, duration := blockDuration,
      reason := "Rate limit exceeded: " ++ toString maxViolation.count ++ "/" ++
        toString maxViolation.limit ++ " " ++ maxViolation.vtype,
      violations := v :: rest, messageType := messageType }
  (Decision.blockedNew severity blockDuration (v :: rest),
   { st with blockedUsers := mapSet st.blockedUsers userJid bi })

/-- Model of `RateLimiter.shouldWarn`: warn when the per-minute count reached
`Math.floor(limit * threshold)` and the last warning is over five minutes old;
updates the warning bookkeeping. -/
def shouldWarn (ud : UserData) (lk : LimitKey) (lims : CatLimits) (now : Int) :
    Option String × UserData :=
  let actions := ud.log lk
  let perMinute := (actions.filter (fun t => now - 60 * 1000 < t)).length
  let frac := warnThresholdFrac lk
  let minuteThreshold := lims.perMinute * frac.1 / frac.2
  if minuteThreshold ≤ perMinute ∧ 5 * 60 * 1000 < now - ud.lastWarning then
    (some ("⚠️ Warning: You\x27re sending messages quickly (" ++ toString perMinute ++
       "/" ++ toString lims.perMinute ++
       " per minute). Please slow down to avoid being temporarily blocked."),
     { ud with lastWarning := now, warningCount := ud.warningCount + 1 })
  else
    (none, ud)

/-- Model of `RateLimiter.canSendMessage`: block lookup, per-window limit check,
warning threshold; note that the `limitKey` is `media` for media and
`messages` for EVERY other message type. -/
def canSendMessage (st : RLState) (userJid : String) (messageType : String)
    (now : Int) : Decision × RLState :=
  let userKey := userJid ++ ":" ++ messageType
  match isBlocked st userJid now with
  | (true, st1) => (Decision.blockedExisting (getBlockInfo st1 userJid), st1)
  | (false, st1) =>
    let ul := match st1.userLimits.lookup userKey with
      | some _ => st1.userLimits
      | none => mapSet st1.userLimits userKey freshUserData
    let ud := (ul.lookup userKey).getD freshUserData
    let lk := if messageType == "media" then LimitKey.media else LimitKey.messages
    let lims := limitsFor lk
    let ud1 := cleanOldEntries ud lk now
    match checkLimits ud1 lk lims now with
    | v :: rest =>
      handleViolations { st1 with userLimits := mapSet ul userKey ud1 }
        userJid messageType now v rest
    | [] =>
      match shouldWarn ud1 lk lims now with
      | (some msg, ud2) =>
        (Decision.allowedWarn msg, { st1 with userLimits := mapSet ul userKey ud2 })
      | (none, ud2) =>
        (Decision.allowed, { st1 with userLimits := mapSet ul userKey ud2 })

/-- Model of `RateLimiter.recordAction`: append `now` to the log selected by the
action/message type (`command` actions land in `commands`). -/
def recordAction (st : RLState) (userJid : String) (actionType : String)
    (messageType : String) (now : Int) : RLState :=
  let userKey := userJid ++ ":" ++ messageType
  let ul := match st.userLimits.lookup userKey with
    | some _ => st.userLimits
    | none => mapSet st.userLimits userKey freshUserData
  let ud := (ul.lookup userKey).getD freshUserData
  let lk := if actionType == "command" then LimitKey.commands
    else if messageType == "media" then LimitKey.media else LimitKey.messages
  { st with userLimits := mapSet ul userKey (ud.setLog lk ((ud.log lk) ++ [now])) }

/-- Model of `RateLimiter.cleanupBlockedUsers`: the periodic sweep deleting every
expired record. -/
def cleanupBlockedUsers (st : RLState) (now : Int) : RLState :=
  { st with blockedUsers :=
      st.blockedUsers.filter (fun p => ¬ (p.2.blockedAt + p.2.duration ≤ now)) }

/-- One element of the array built by `RateLimiter.getBlockedUsers`. -/
structure BlockedEntry where
  userJid : String
  reason : String
  remainingTime : Int
  blockedAt : Int
deriving DecidableEq

/-- Model of `RateLimiter.getBlockedUsers`: every record still in the map, remaining
time clamped at zero by `Math.max`. -/
def getBlockedUsers (st : RLState) (now : Int) : List BlockedEntry :=
  st.blockedUsers.map (fun p =>
    { userJid := p.1, reason := p.2.reason,
      remainingTime := max 0 (p.2.blockedAt + p.2.duration - now),
      blockedAt := p.2.blockedAt })


/-! ## Raw inbound events and the Event Normalizer
(`MessageHandler.extractMessageData` in src/message-handler.js) -/

/-- Model of `message.key`. The transport always attaches a key, so its fields are
plain; `participant` is absent outside groups. -/
structure MsgKey where
  id : String
  remoteJid : String
  fromMe : Bool
  participant : Option String
deriving DecidableEq

/-- Model of `contextInfo` of an extended text message. -/
structure CtxInfo where
  stanzaId : Option String
  isForwarded : Option Bool
deriving DecidableEq

/-- Model of `extendedTextMessage` payload. -/
structure ExtText where
  text : Option String
  contextInfo : Option CtxInfo
deriving DecidableEq

/-- An image/video/document payload (`caption`, `url`, `mimetype`). -/
structure MediaPayload where
  caption : Option String
  url : Option String
  mimetype : Option String
deriving DecidableEq

/-- An audio/sticker payload (`url`, `mimetype`, no caption). -/
structure PlainMediaPayload where
  url : Option String
  mimetype : Option String
deriving DecidableEq

/-- Model of `message.message`: at most one payload branch is read, in the fixed
precedence order of the source. -/
structure MsgContent where
  conversation : Option String
  extendedTextMessage : Option ExtText
  imageMessage : Option MediaPayload
  videoMessage : Option MediaPayload
  audioMessage : Option PlainMediaPayload
  documentMessage : Option MediaPayload
  stickerMessage : Option PlainMediaPayload
deriving DecidableEq

/-- A raw inbound event; `messageTimestamp` is `none` when absent or
non-numeric (in JS that makes `messageTimestamp * 1000` a `NaN`). -/
structure RawMessage where
  key : MsgKey
  messageTimestamp : Option Int
  message : Option MsgContent
deriving DecidableEq

/-- A row of the `messages` table as built by `extractMessageData`
(`content` is `none` when the JS value is `undefined`; the timestamp is the
epoch-millisecond value the stored ISO string denotes). -/
structure MsgRecord where
  message_id : String
  jid : String
  sender_jid : String
  message_type : String
  content : Option String
  media_url : Option String
  media_type : Option String
  timestamp : Int
  is_group : Bool
  group_jid : Option String
  reply_to : Option String
  is_forwarded : Bool
deriving DecidableEq

/-- The content-kind detection of `extractMessageData`: type, content,
media url, media mimetype. `if (message.message.conversation)` is a JS
truthiness test, so an empty conversation string falls through. -/
def detectContent (m : Option MsgContent) :
    String × Option String × Option String × Option String :=
  match m with
  | none => ("text", some "", none, none)
  | some mm =>
    if jsTruthyS mm.conversation then
      ("text", mm.conversation, none, none)
    else match mm.extendedTextMessage with
    | some ext => ("text", ext.text, none, none)
    | none => match mm.imageMessage with
    | some im => ("image", some (jsOrS im.caption ""), im.url, im.mimetype)
    | none => match mm.videoMessage with
    | some vm => ("video", some (jsOrS vm.caption ""), vm.url, vm.mimetype)
    | none => match mm.audioMessage with
    | some am => ("audio", some "", am.url, am.mimetype)
    | none => match mm.documentMessage with
    | some dm => ("document", some (jsOrS dm.caption ""), dm.url, dm.mimetype)
    | none => match mm.stickerMessage with
    | some sm => ("sticker", some "", sm.url, sm.mimetype)
    | none => ("text", some "", none, none)

/-- Model of `message.message?.extendedTextMessage?.contextInfo?.stanzaId || null`. -/
def replyToOf (m : Option MsgContent) : Option String :=
  match m with
  | none => none
  | some mm => match mm.extendedTextMessage with
    | none => none
    | some ext => match ext.contextInfo with
      | none => none
      | some ci => match ci.stanzaId with
        | none => none
        | some s => if s == "" then none else some s

/-- Model of `... contextInfo?.isForwarded || false`. -/
def forwardedOf (m : Option MsgContent) : Bool :=
  match m with
  | none => false
  | some mm => match mm.extendedTextMessage with
    | none => false
    | some ext => match ext.contextInfo with
      | none => false
      | some ci => ci.isForwarded.getD false

/-- Model of `MessageHandler.extractMessageData`. The record carries
`new Date(messageTimestamp * 1000).toISOString()`: when the timestamp is
absent the multiplication gives `NaN`, and when the product lies outside
the ECMAScript Date range (time values are valid iff their magnitude is
at most 8640000000000000 ms); in both cases the Date is invalid and
`toISOString` throws `RangeError: Invalid time value`, which the model
returns as `.error`. -/
def extractMessageData (message : RawMessage) (senderJid : String)
    (isGroup : Bool) (groupJid : Option String) : Except String MsgRecord :=
  let f := detectContent message.message
  match message.messageTimestamp with
  | none => .error "Invalid time value"
  | some ts =>
    if ts * 1000 < -8640000000000000 ∨ 8640000000000000 < ts * 1000 then
      .error "Invalid time value"
    else
      .ok { message_id := message.key.id
            jid := senderJid
            sender_jid := jsOrS message.key.participant senderJid
            message_type := f.1
            content := f.2.1
            media_url := f.2.2.1
            media_type := f.2.2.2
            timestamp := ts * 1000
            is_group := isGroup
            group_jid := groupJid
            reply_to := replyToOf message.message
            is_forwarded := forwardedOf message.message }

/-! ## Trigger Engine (`MessageHandler.processTriggers` and the trigger CRUD) -/

/-- A row of the `triggers` table. -/
structure TriggerRow where
  keyword : String
  response : String
  match_type : String
  case_sensitive : Bool
  is_active : Bool
deriving DecidableEq

/-- The semantics of `new RegExp(pattern, flags).test(text)` is external to
this model: `regexSem pattern caseSensitive text` is `none` when the pattern
does not compile (the JS constructor throws) and `some b` for a test
outcome. Claims settled here never depend on a particular regex behavior. -/
def RegexSem : Type := String → Bool → String → Option Bool

/-- The per-rule test of `processTriggers`. `contentLower` is the variable
`content = messageData.content.toLowerCase()` computed once for the message;
note the `contains` branch searches `contentLower` even when the rule is
case sensitive, and the `regex` branch tests the raw content. An unknown
match type leaves `shouldRespond` false (JS switch without default). -/
def matchesTrigger (regexSem : RegexSem) (t : TriggerRow)
    (contentRaw contentLower : String) : Bool :=
  if t.match_type == "exact" then
    let triggerWord := if t.case_sensitive then t.keyword else jsToLower t.keyword
    let messageWord := if t.case_sensitive then contentRaw else contentLower
    messageWord == triggerWord
  else if t.match_type == "contains" then
    let keyword := if t.case_sensitive then t.keyword else jsToLower t.keyword
    jsIncludes contentLower keyword
  else if t.match_type == "regex" then
    (regexSem t.keyword t.case_sensitive contentRaw).getD false
  else false

/-- An outbound `sendText(to, text, { mentions })` call. -/
structure SentMsg where
  target : String
  text : String
  mentions : List String
deriving DecidableEq

/-- Model of `MessageHandler.processTriggers`: nothing on falsy content, else every
active-snapshot rule is evaluated in stored order and each match dispatches
one response to the conversation. -/
def processTriggers (snap : List TriggerRow) (regexSem : RegexSem)
    (md : MsgRecord) : List SentMsg :=
  if ¬ jsTruthyS md.content then []
  else
    let contentRaw := md.content.getD ""
    let contentLower := jsToLower contentRaw
    snap.foldl (fun acc t =>
      if matchesTrigger regexSem t contentRaw contentLower then
        acc ++ [{ target := md.jid, text := t.response, mentions := [] }]
      else acc) []

/-- Model of `DatabaseManager.addTrigger`: a plain INSERT into a table whose
`keyword` column is UNIQUE, so a duplicate keyword is rejected with a
constraint error; a fresh row is active by default. -/
def dbAddTrigger (rows : List TriggerRow) (keyword response matchType : String)
    (caseSensitive : Bool) : Except String (List TriggerRow) :=
  if rows.any (fun r => r.keyword == keyword) then
    .error "SQLITE_CONSTRAINT: UNIQUE constraint failed: triggers.keyword"
  else
    .ok (rows ++ [{ keyword := keyword, response := response,
                    match_type := matchType, case_sensitive := caseSensitive,
                    is_active := true }])

/-- Model of `DatabaseManager.removeTrigger`: `DELETE FROM triggers WHERE keyword = ?`.
Deleting zero rows is not an error; the second component is the `changes`
count the driver reports. -/
def dbRemoveTrigger (rows : List TriggerRow) (keyword : String) :
    List TriggerRow × Nat :=
  ((rows.filter (fun r => r.keyword != keyword)),
   (rows.filter (fun r => r.keyword == keyword)).length)

/-- Model of `DatabaseManager.getActiveTriggers`. -/
def getActiveTriggers (rows : List TriggerRow) : List TriggerRow :=
  rows.filter (fun r => r.is_active)

/-- The trigger-relevant state of a `MessageHandler`: the `triggers` table
and the in-memory snapshot `this.triggers`. -/
structure TrigState where
  db : List TriggerRow
  snap : List TriggerRow
deriving DecidableEq

/-- Model of `MessageHandler.addTrigger`: on a database error the catch returns
`false` and the snapshot is not reloaded; on success `loadTriggers`
replaces the snapshot with the active rows. -/
def mhAddTrigger (st : TrigState) (keyword response matchType : String)
    (caseSensitive : Bool) : Bool × TrigState :=
  match dbAddTrigger st.db keyword response matchType caseSensitive with
  | .error _ => (false, st)
  | .ok db1 => (true, { db := db1, snap := getActiveTriggers db1 })

/-- Model of `MessageHandler.removeTrigger`: the DELETE never fails, so this always
reloads and returns `true`. -/
def mhRemoveTrigger (st : TrigState) (keyword : String) : Bool × TrigState :=
  let db1 := (dbRemoveTrigger st.db keyword).1
  (true, { db := db1, snap := getActiveTriggers db1 })

/-! ## Pipeline Coordinator (`MessageHandler.processMessage`) and spam check -/

/-- A row of the `spam_logs` table as written by `DatabaseManager.logSpam`. -/
structure SpamLog where
  user_jid : String
  message_id : String
  reason : String
  severity : String
  action : String
deriving DecidableEq

/-- Model of `config.moderation.spamThreshold` (config/config.js, bundled
at the tail of src/scripts/init-db.js):
`parseInt(process.env.SPAM_THRESHOLD) || 5`. With SPAM_THRESHOLD unset,
`parseInt(undefined)` is NaN, which is falsy, so the configured value is
the default 5 — the deployment the claims quantify over. -/
def spamThreshold : Nat := 5

/-- The observable world state one pipeline pass reads and writes: the
`messages` and `spam_logs` tables, the `users` table reduced to its
`message_count` column, the in-memory trigger snapshot, and the outbound
sends. (`bot_logs` and `collected_data` rows, written by `db.log` and
`collectData`, are outside every claim and not carried here.) -/
structure World where
  messages : List MsgRecord
  spamLogs : List SpamLog
  users : List (String × Nat)
  triggers : List TriggerRow
  sent : List SentMsg
deriving DecidableEq

/-- Model of `DatabaseManager.saveMessage`: `INSERT OR IGNORE`, keyed by the UNIQUE
`message_id` column. -/
def saveMessage (messages : List MsgRecord) (md : MsgRecord) : List MsgRecord :=
  if messages.any (fun m => m.message_id == md.message_id) then messages
  else messages ++ [md]

/-- Model of `DatabaseManager.createUser`: `INSERT OR REPLACE` — replacing rewrites
the whole row, so `message_count` restarts at its column default 0. -/
def createUser (users : List (String × Nat)) (jid : String) : List (String × Nat) :=
  mapSet users jid 0

/-- Model of `DatabaseManager.updateUserActivity`: increment `message_count`. -/
def updateUserActivity (users : List (String × Nat)) (jid : String) :
    List (String × Nat) :=
  match users.lookup jid with
  | none => users
  | some n => mapSet users jid (n + 1)

/-- The COUNT(*) of the `checkSpam` query: stored messages of this sender
newer than five minutes ago. -/
def recentCount (messages : List MsgRecord) (senderJid : String) (now : Int) : Nat :=
  (messages.filter (fun m => m.sender_jid == senderJid && now - 5 * 60 * 1000 < m.timestamp)).length

/-- The characters before the first `@` (JS `s.split("@")[0]`). -/
def beforeAt : List Char → List Char
  | [] => []
  | c :: cs => if c = '@' then [] else c :: beforeAt cs

/-- The group warning text of `checkSpam`
(`@` + the part of the jid before the `@` + a fixed tail). -/
def spamWarnText (userJid : String) : String :=
  "⚠️ @" ++ (⟨beforeAt userJid.data⟩ : String) ++
    ", please slow down your messages to avoid being flagged as spam."

/-- Model of `MessageHandler.checkSpam`: when the trailing five-minute count exceeds
the threshold, one spam log row (severity medium, action flagged) and — for
group conversations only — one warning send mentioning the sender. -/
def checkSpam (messages : List MsgRecord) (md : MsgRecord) (now : Int) :
    List SpamLog × List SentMsg :=
  if spamThreshold < recentCount messages md.sender_jid now then
    ([{ user_jid := md.sender_jid, message_id := md.message_id,
        reason := "High message frequency", severity := "medium",
        action := "flagged" }],
     if md.is_group then
       [{ target := md.jid, text := spamWarnText md.sender_jid,
          mentions := [md.sender_jid] }]
     else [])
  else ([], [])

/-- JS `String.prototype.endsWith`. -/
def jsEndsWith (s suffix : String) : Bool :=
  segLeads s.data.reverse suffix.data.reverse

/-- The local computations of `processMessage` feeding `extractMessageData`:
sender, group flag, group jid. -/
def normalizeEvent (raw : RawMessage) : Except String MsgRecord :=
  let senderJid := raw.key.remoteJid
  let isGroup := jsEndsWith senderJid "@g.us"
  extractMessageData raw senderJid isGroup (if isGroup then some senderJid else none)

/-- Model of `MessageHandler.processMessage`: skip own messages, normalize, save,
update user activity, run triggers, check spam — unconditionally and in
this order. No admission check is made: `processMessage` never consults a
`RateLimiter` (the class is imported by message-handler.js but never
instantiated or called anywhere in the repository), so no `RLState`
participates in a pipeline pass. A normalization throw escapes as
`.error` (caught by the `onMessage` wrapper outside this function). -/
def processMessage (regexSem : RegexSem) (w : World) (raw : RawMessage)
    (now : Int) : Except String World :=
  if raw.key.fromMe then .ok w
  else match normalizeEvent raw with
  | .error e => .error e
  | .ok md =>
    let participantJid := jsOrS raw.key.participant raw.key.remoteJid
    let messages1 := saveMessage w.messages md
    let users1 := updateUserActivity (createUser w.users participantJid) participantJid
    let triggerSends := processTriggers w.triggers regexSem md
    let spamOut := checkSpam messages1 md now
    .ok { w with
          messages := messages1
          users := users1
          sent := w.sent ++ triggerSends ++ spamOut.2
          spamLogs := w.spamLogs ++ spamOut.1 }

/-- A regex oracle for concrete runs that involve no regex rule. -/
def regexNone : RegexSem := fun _ _ _ => none

/-! ## Concrete scenario material -/

/-- One check-then-record interaction of the 21-message scenario
(category message, type text). -/
def rlScenarioStep (st : RLState) (now : Int) : Decision × RLState :=
  let r := canSendMessage st "user@s.whatsapp.net" "text" now
  (r.1, recordAction r.2 "user@s.whatsapp.net" "message" "text" now)

def rlScenarioAux : Nat → RLState → Int → List Decision
  | 0, _, _ => []
  | n + 1, st, now =>
    let r := rlScenarioStep st now
    r.1 :: rlScenarioAux n r.2 (now + 1)

/-- The decisions of the first `n` checks, one per millisecond from a fresh
state (so every message falls inside every window). -/
def rlScenarioDecisions (n : Nat) : List Decision :=
  rlScenarioAux n rlInit 1000001

/-- A sender state whose minute window is exactly at the message limit while
the hour window is at twice its limit. -/
def burstState : RLState :=
  { userLimits := [("u@s.whatsapp.net:text",
      { messages := List.replicate 180 880000 ++ List.replicate 20 999000,
        media := [], commands := [], lastWarning := 0, warningCount := 0 })],
    blockedUsers := [] }

/-- Ten command actions recorded within the trailing minute. -/
def commandBurstState : RLState :=
  (List.range 10).foldl
    (fun st i => recordAction st "u@s.whatsapp.net" "command" "text" (999000 + i))
    rlInit


/-- An empty message-content record (all payload branches absent). -/
def emptyContent : MsgContent :=
  { conversation := none, extendedTextMessage := none, imageMessage := none,
    videoMessage := none, audioMessage := none, documentMessage := none,
    stickerMessage := none }

/-- Severity names ranked by the JS lexicographic string order:
`hard < severe < soft < warning`. -/
def sevRank (s : String) : Nat :=
  if s == "warning" then 3
  else if s == "soft" then 2
  else if s == "severe" then 1
  else 0

/-- A world holding one active exact trigger on `hello`. -/
def c1World : World :=
  { messages := [], spamLogs := [], users := [],
    triggers := [{ keyword := "hello", response := "Hi there!",
                   match_type := "exact", case_sensitive := false,
                   is_active := true }],
    sent := [] }

/-- A rate-limiter state in which `blocked@s.whatsapp.net` carries an
unexpired hard block at time 1000000. -/
def c1Rl : RLState :=
  { userLimits := [],
    blockedUsers := [("blocked@s.whatsapp.net",
      { blockedAt := 900000, duration := 1800000,
        reason := "Rate limit exceeded: 20/20 perMinute",
        violations := [], messageType := "text" })] }

/-- A plain text message `hello` from the blocked sender. -/
def c1Raw : RawMessage :=
  { key := { id := "MSG1", remoteJid := "blocked@s.whatsapp.net",
             fromMe := false, participant := none },
    messageTimestamp := some 1000,
    message := some { emptyContent with conversation := some "hello" } }

/-- A sender state whose minute AND hour message windows tie at severity
`soft` (20/20 and 100/100). -/
def tieState : UserData :=
  { messages := List.replicate 80 880000 ++ List.replicate 20 999000,
    media := [], commands := [], lastWarning := 0, warningCount := 0 }

/-- An active contains-rule with `caseSensitive` set and a capitalized
keyword. -/
def c7Trigger : TriggerRow :=
  { keyword := "Hello", response := "greeting", match_type := "contains",
    case_sensitive := true, is_active := true }

/-- A normalized text message whose raw content equals the `c7Trigger`
keyword exactly. -/
def c7Md : MsgRecord :=
  { message_id := "M7", jid := "x@s.whatsapp.net",
    sender_jid := "x@s.whatsapp.net", message_type := "text",
    content := some "Hello", media_url := none, media_type := none,
    timestamp := 0, is_group := false, group_jid := none, reply_to := none,
    is_forwarded := false }

/-- A raw event with a message body but no `messageTimestamp`. -/
def c9Raw : RawMessage :=
  { key := { id := "MSG9", remoteJid := "x@s.whatsapp.net", fromMe := false,
             participant := none },
    messageTimestamp := none,
    message := some { emptyContent with conversation := some "hi" } }

/-- A raw event with a timestamp and no message body at all. -/
def c9OkRaw : RawMessage :=
  { key := { id := "W1", remoteJid := "x@s.whatsapp.net", fromMe := false,
             participant := none },
    messageTimestamp := some 5,
    message := none }

/-- The record `extractMessageData` produces for `c9OkRaw`. -/
def c9OkMd : MsgRecord :=
  { message_id := "W1", jid := "x@s.whatsapp.net",
    sender_jid := "x@s.whatsapp.net", message_type := "text",
    content := some "", media_url := none, media_type := none,
    timestamp := 5000, is_group := false, group_jid := none, reply_to := none,
    is_forwarded := false }

/-- A raw event whose numeric timestamp lies beyond the ECMAScript Date
range (8640000000001 s, so 8640000000001000 ms > 8640000000000000 ms). -/
def c9FarRaw : RawMessage :=
  { key := { id := "W2", remoteJid := "x@s.whatsapp.net", fromMe := false,
             participant := none },
    messageTimestamp := some 8640000000001,
    message := none }

/-- A registry holding one block record that expired at time 1000
(`blockedAt` 0, `duration` 1000), observed at time 5000 with no lookup and
no sweep in between. -/
def expiredState : RLState :=
  { userLimits := [],
    blockedUsers := [("expired@s.whatsapp.net",
      { blockedAt := 0, duration := 1000, reason := "r", violations := [],
        messageType := "text" })] }

/-- A trigger store holding one active rule keyed `dup`. -/
def c6State : TrigState :=
  { db := [{ keyword := "dup", response := "x", match_type := "exact",
             case_sensitive := false, is_active := true }],
    snap := [{ keyword := "dup", response := "x", match_type := "exact",
               case_sensitive := false, is_active := true }] }

/-- The `i`-th of five prior group messages of the spam scenario, all inside
the trailing five-minute window of time 1000000. -/
def priorMsg (i : Nat) : MsgRecord :=
  { message_id := "P" ++ toString i, jid := "grp@g.us",
    sender_jid := "spammer@s.whatsapp.net", message_type := "text",
    content := some "hi", media_url := none, media_type := none,
    timestamp := 999000 + i, is_group := true, group_jid := some "grp@g.us",
    reply_to := none, is_forwarded := false }

/-- The world right before the sixth message of the spam scenario. -/
def c8World : World :=
  { messages := (List.range 5).map priorMsg, spamLogs := [], users := [],
    triggers := [], sent := [] }

/-- The sixth group message of the spam scenario. -/
def c8Raw : RawMessage :=
  { key := { id := "S6", remoteJid := "grp@g.us", fromMe := false,
             participant := some "spammer@s.whatsapp.net" },
    messageTimestamp := some 999,
    message := some { emptyContent with conversation := some "spam" } }

/-- The normalized record of `c8Raw`. -/
def c8Md : MsgRecord :=
  { message_id := "S6", jid := "grp@g.us",
    sender_jid := "spammer@s.whatsapp.net", message_type := "text",
    content := some "spam", media_url := none, media_type := none,
    timestamp := 999000, is_group := true, group_jid := some "grp@g.us",
    reply_to := none, is_forwarded := false }

/-- The severity rank of a violation under the JS string order. -/
def vRank (v : Violation) : Nat := sevRank (getViolationSeverity v)

/-! ## Helper lemmas -/

theorem jsStrLtL_irrefl (l : List Char) : jsStrLtL l l = false := by
  induction l with
  | nil => rfl
  | cons a as ih => simp [jsStrLtL, ih]

theorem sev_cases (v : Violation) :
    getViolationSeverity v = "severe" ∨ getViolationSeverity v = "hard" ∨
    getViolationSeverity v = "soft" ∨ getViolationSeverity v = "warning" := by
  unfold getViolationSeverity
  split_ifs <;> simp

theorem jsSevGt_iff_rank (v w : Violation) :
    jsSevGt v w = true ↔ vRank w < vRank v := by
  rcases sev_cases v with hv | hv | hv | hv <;>
    rcases sev_cases w with hw | hw | hw | hw <;>
    simp only [jsSevGt, vRank, hv, hw] <;> decide

theorem jsMaxViolation_cons (v w : Violation) (l : List Violation) :
    jsMaxViolation v (w :: l) = jsMaxViolation (if jsSevGt w v then w else v) l := rfl

theorem jsMaxViolation_mem (v : Violation) (l : List Violation) :
    jsMaxViolation v l ∈ v :: l := by
  induction l generalizing v with
  | nil => simp [jsMaxViolation]
  | cons w l ih =>
    rw [jsMaxViolation_cons]
    cases hb : jsSevGt w v <;> simp only [hb, if_true, if_false, Bool.false_eq_true, ite_false, ite_true]
    · rcases List.mem_cons.mp (ih v) with h | h
      · rw [h]; exact List.mem_cons_self _ _
      · exact List.mem_cons_of_mem _ (List.mem_cons_of_mem _ h)
    · rcases List.mem_cons.mp (ih w) with h | h
      · rw [h]; exact List.mem_cons_of_mem _ (List.mem_cons_self _ _)
      · exact List.mem_cons_of_mem _ (List.mem_cons_of_mem _ h)

theorem jsMaxViolation_max (v : Violation) (l : List Violation) :
    ∀ w ∈ v :: l, vRank w ≤ vRank (jsMaxViolation v l) := by
  induction l generalizing v with
  | nil =>
    intro w hw
    rw [List.mem_singleton] at hw
    subst hw
    simp [jsMaxViolation]
  | cons u l ih =>
    intro w hw
    rw [jsMaxViolation_cons]
    cases hb : jsSevGt u v <;> simp only [hb, if_true, if_false, Bool.false_eq_true, ite_false, ite_true]
    · have huv : vRank u ≤ vRank v := by
        have h2 : ¬ vRank v < vRank u := by
          rw [← jsSevGt_iff_rank, hb]; simp
        omega
      rcases List.mem_cons.mp hw with h | h
      · rw [h]; exact ih v v (List.mem_cons_self _ _)
      · rcases List.mem_cons.mp h with h | h
        · rw [h]; exact le_trans huv (ih v v (List.mem_cons_self _ _))
        · exact ih v _ (List.mem_cons_of_mem _ h)
    · have hvu : vRank v ≤ vRank u := le_of_lt ((jsSevGt_iff_rank u v).mp hb)
      rcases List.mem_cons.mp hw with h | h
      · rw [h]; exact le_trans hvu (ih u u (List.mem_cons_self _ _))
      · rcases List.mem_cons.mp h with h | h
        · rw [h]; exact ih u u (List.mem_cons_self _ _)
        · exact ih u _ (List.mem_cons_of_mem _ h)

theorem jsMaxViolation_ties (v : Violation) (l : List Violation)
    (h : ∀ w ∈ l, getViolationSeverity w = getViolationSeverity v) :
    jsMaxViolation v l = v := by
  induction l with
  | nil => rfl
  | cons u l ih =>
    have hu : getViolationSeverity u = getViolationSeverity v :=
      h u (List.mem_cons_self _ _)
    have hgt : jsSevGt u v = false := by
      unfold jsSevGt jsStrLt
      rw [hu]
      exact jsStrLtL_irrefl _
    rw [jsMaxViolation_cons, hgt]
    simp only [Bool.false_eq_true, if_false, ite_false]
    exact ih (fun w hw => h w (List.mem_cons_of_mem _ hw))

theorem lookup_mapDel {α : Type} (l : List (String × α)) (k : String) :
    (mapDel l k).lookup k = none := by
  induction l with
  | nil => rfl
  | cons p rest ih =>
    by_cases h : p.1 = k
    · simpa [mapDel, List.filter_cons, h] using ih
    · simp only [mapDel, List.filter_cons] at ih ⊢
      have hb : (p.1 != k) = true := by simp [h]
      rw [hb]
      simp only [if_true, ite_true]
      have hk : (k == p.1) = false := by simp [Ne.symm h]
      cases p with
      | mk a b =>
        simp only [List.lookup] at *
        simp only [hk] at *
        simpa using ih

theorem mem_mapDel_ne {α : Type} (l : List (String × α)) (k : String) :
    ∀ p ∈ mapDel l k, p.1 ≠ k := by
  intro p hp
  have h := (List.mem_filter.mp hp).2
  simpa using h

/-! ## Claims -/

/-- C10: every entry of the blocked-senders enumeration carries a
non-negative `remainingTime`; a record whose expiry has passed but that no
lookup or sweep has removed yet is still reported, with `remainingTime`
clamped to 0. -/
theorem c10_remaining_time_nonneg : ∀ (st : RLState) (now : Int),
    (∀ e ∈ getBlockedUsers st now, 0 ≤ e.remainingTime) ∧
    (∀ (u : String) (bi : BlockInfo), (u, bi) ∈ st.blockedUsers →
      bi.blockedAt + bi.duration ≤ now →
      ({ userJid := u, reason := bi.reason, remainingTime := 0,
         blockedAt := bi.blockedAt } : BlockedEntry) ∈ getBlockedUsers st now) := by
  intro st now
  constructor
  · intro e he
    obtain ⟨p, _, rfl⟩ := List.mem_map.mp he
    exact le_max_left _ _
  · intro u bi hmem hexp
    have h0 : max (0 : Int) (bi.blockedAt + bi.duration - now) = 0 :=
      max_eq_left (by omega)
    exact List.mem_map.mpr ⟨(u, bi), hmem, by simp [h0]⟩

/-- Witness for C10 at a concrete registry holding one expired record. -/
theorem c10_remaining_time_nonneg_witness :
    ({ userJid := "expired@s.whatsapp.net", reason := "r", remainingTime := 0,
       blockedAt := 0 } : BlockedEntry) ∈ getBlockedUsers expiredState 5000 :=
  (c10_remaining_time_nonneg expiredState 5000).2 "expired@s.whatsapp.net"
    { blockedAt := 0, duration := 1000, reason := "r", violations := [],
      messageType := "text" }
    (by simp [expiredState]) (by decide)

/-- C5 counterexample: a record that expired at time 1000, with neither a
lookup nor a sweep having run, is still present in the `getBlockedUsers`
enumeration at time 5000 — the sender is not absent after expiry. -/
theorem c5_counterexample_expired_still_enumerated :
    (0 : Int) + 1000 ≤ 5000 ∧
    (getBlockedUsers expiredState 5000).map BlockedEntry.userJid =
      ["expired@s.whatsapp.net"] := by decide

/-- C5 (amended): a sender with a block record is blocked iff
`now < blockedAt + duration`; a lookup that observes an expired record
deletes it, and after such a lookup (or the sweep) the sender is absent
from the blocked-senders enumeration. -/
theorem c5_amended_block_expiry : ∀ (st : RLState) (u : String) (now : Int)
    (bi : BlockInfo), st.blockedUsers.lookup u = some bi →
    ((isBlocked st u now).1 = true ↔ now < bi.blockedAt + bi.duration) ∧
    (bi.blockedAt + bi.duration ≤ now →
      ((isBlocked st u now).2.blockedUsers.lookup u = none ∧
       ∀ e ∈ getBlockedUsers (isBlocked st u now).2 now, e.userJid ≠ u)) := by
  intro st u now bi hlk
  by_cases hexp : bi.blockedAt + bi.duration ≤ now
  · simp only [isBlocked, hlk]
    rw [if_pos hexp]
    constructor
    · constructor
      · intro h; exact absurd h (by simp)
      · intro h; exact absurd h (not_lt.mpr hexp)
    · intro _
      constructor
      · exact lookup_mapDel _ _
      · intro e he
        obtain ⟨p, hp, rfl⟩ := List.mem_map.mp he
        exact mem_mapDel_ne _ _ p hp
  · simp only [isBlocked, hlk]
    rw [if_neg hexp]
    constructor
    · constructor
      · intro _; exact lt_of_not_le hexp
      · intro _; rfl
    · intro h; exact absurd h hexp

/-- Witness for C5 (amended) at the concrete expired record: the lookup
deletes it. -/
theorem c5_amended_block_expiry_witness :
    (isBlocked expiredState "expired@s.whatsapp.net" 5000).2.blockedUsers.lookup
      "expired@s.whatsapp.net" = none :=
  ((c5_amended_block_expiry expiredState "expired@s.whatsapp.net" 5000
      { blockedAt := 0, duration := 1000, reason := "r", violations := [],
        messageType := "text" } (by decide)).2 (by decide)).1

/-- C6 counterexample: removing a keyword that has no rule does not fail
with NotFound — the handler reports success and the DELETE affects zero
rows. -/
theorem c6_counterexample_remove_missing_succeeds :
    mhRemoveTrigger { db := [], snap := [] } "hello" =
      (true, { db := [], snap := [] }) ∧
    (dbRemoveTrigger [] "hello").2 = 0 := by decide

/-- C6 (amended): adding a rule whose keyword already exists fails (the
UNIQUE column rejects it, the handler reports failure, nothing changes);
adding a fresh keyword succeeds and the new rule is visible in the
snapshot the next match call reads; removing a keyword always reports
success (a missing keyword is a silent no-op, not NotFound) and afterwards
no rule with that keyword is visible to the next match call. -/
theorem c6_amended_trigger_crud : ∀ (st : TrigState) (kw resp mt : String)
    (cs : Bool),
    (st.db.any (fun r => r.keyword == kw) = true →
      mhAddTrigger st kw resp mt cs = (false, st)) ∧
    (st.db.any (fun r => r.keyword == kw) = false →
      (mhAddTrigger st kw resp mt cs).1 = true ∧
      ({ keyword := kw, response := resp, match_type := mt,
         case_sensitive := cs, is_active := true } : TriggerRow) ∈
        (mhAddTrigger st kw resp mt cs).2.snap) ∧
    ((mhRemoveTrigger st kw).1 = true ∧
      ∀ r ∈ (mhRemoveTrigger st kw).2.snap, r.keyword ≠ kw) := by
  intro st kw resp mt cs
  refine ⟨?_, ?_, ?_, ?_⟩
  · intro h
    simp [mhAddTrigger, dbAddTrigger, h]
  · intro h
    constructor
    · simp [mhAddTrigger, dbAddTrigger, h]
    · simp [mhAddTrigger, dbAddTrigger, h, getActiveTriggers, List.mem_filter]
  · rfl
  · intro r hr
    simp only [mhRemoveTrigger, dbRemoveTrigger, getActiveTriggers] at hr
    have h1 := (List.mem_filter.mp hr).1
    have h2 := (List.mem_filter.mp h1).2
    simpa using h2

/-- Witness for C6 (amended): adding the existing keyword `dup` fails and
leaves the store untouched. -/
theorem c6_amended_trigger_crud_witness :
    mhAddTrigger c6State "dup" "y" "contains" false = (false, c6State) :=
  (c6_amended_trigger_crud c6State "dup" "y" "contains" false).1 (by decide)

/-- C2 counterexample: minute window 20/20 (severity soft) and hour window
200/100 (severity severe) breach together, yet the admission check blocks
with severity `soft` and a 5-minute duration — the determining violation is
NOT one of maximal severity (the JS `>` compares the severity names as
strings, and `soft` sorts above `severe`). -/
theorem c2_counterexample_lexicographic_severity :
    (canSendMessage burstState "u@s.whatsapp.net" "text" 1000000).1 =
      Decision.blockedNew "soft" 300000
        [{ vtype := "perMinute", count := 20, limit := 20 },
         { vtype := "perHour", count := 200, limit := 100 }] ∧
    getViolationSeverity { vtype := "perHour", count := 200, limit := 100 } =
      "severe" ∧
    blockDurations "severe" = 7200000 ∧
    jsStrLt "severe" "soft" = true := by decide

/-- C2 (amended): when several windows breach at once, the violation that
determines the outcome is the one the JS reduce selects: it is maximal
under the lexicographic string order on severity names (under which
`soft` sorts above `severe` above `hard`), and when all simultaneous
violations carry the same severity name the first one in check order —
minute before hour before day — is chosen. -/
theorem c2_amended_reduce_selection : ∀ (ud : UserData) (lk : LimitKey)
    (lims : CatLimits) (now : Int) (st : RLState) (userJid messageType : String)
    (v : Violation) (rest : List Violation),
    checkLimits ud lk lims now = v :: rest →
    ((handleViolations st userJid messageType now v rest).1 =
      Decision.blockedNew (getViolationSeverity (jsMaxViolation v rest))
        (blockDurations (getViolationSeverity (jsMaxViolation v rest)))
        (v :: rest) ∧
     jsMaxViolation v rest ∈ v :: rest ∧
     (∀ w ∈ v :: rest, vRank w ≤ vRank (jsMaxViolation v rest)) ∧
     ((∀ w ∈ rest, getViolationSeverity w = getViolationSeverity v) →
       jsMaxViolation v rest = v)) := by
  intro ud lk lims now st userJid messageType v rest _
  exact ⟨rfl, jsMaxViolation_mem v rest, jsMaxViolation_max v rest,
    jsMaxViolation_ties v rest⟩

/-- Witness for C2 (amended): minute 20/20 and hour 100/100 both come out
`soft`; the tie resolves to the minute violation, with a 5-minute soft
block. -/
theorem c2_amended_reduce_selection_witness :
    jsMaxViolation { vtype := "perMinute", count := 20, limit := 20 }
      [{ vtype := "perHour", count := 100, limit := 100 }] =
      { vtype := "perMinute", count := 20, limit := 20 } ∧
    (handleViolations rlInit "u@s.whatsapp.net" "text" 1000000
        { vtype := "perMinute", count := 20, limit := 20 }
        [{ vtype := "perHour", count := 100, limit := 100 }]).1 =
      Decision.blockedNew "soft" 300000
        [{ vtype := "perMinute", count := 20, limit := 20 },
         { vtype := "perHour", count := 100, limit := 100 }] := by
  have h := c2_amended_reduce_selection tieState .messages
    (limitsFor .messages) 1000000 rlInit "u@s.whatsapp.net" "text"
    { vtype := "perMinute", count := 20, limit := 20 }
    [{ vtype := "perHour", count := 100, limit := 100 }] (by decide)
  have hm := h.2.2.2 (by decide)
  exact ⟨hm, by rw [h.1, hm]; decide⟩

/-- C3 counterexample: in the 21-message check-then-record scenario the
16th admission check returns a plain Allowed with no warning (before the
16th check only 15 messages are recorded, below the threshold of 16). -/
theorem c3_counterexample_sixteenth_check_no_warning :
    (rlScenarioDecisions 21).get? 15 = some Decision.allowed := by decide

/-- C3 (amended): checks 1 through 20 return Allowed, the warning is
carried by the 17th check (the first whose recorded per-minute count, 16,
reaches the 80 percent threshold), and the 21st check returns Blocked with
soft severity and a 5-minute duration — never the 20th. -/
theorem c3_amended_scenario_run :
    rlScenarioDecisions 21 =
      List.replicate 16 Decision.allowed ++
      [Decision.allowedWarn
        ("⚠️ Warning: You\x27re sending messages quickly (16/20 per minute). Please slow down to avoid being temporarily blocked.")] ++
      List.replicate 3 Decision.allowed ++
      [Decision.blockedNew "soft" 300000
        [{ vtype := "perMinute", count := 20, limit := 20 }]] := by decide

/-- C4: after ten command actions inside the trailing minute — exactly the
configured per-minute command limit — the admission check still returns
Allowed, whether asked with message type `command` or `text`: the command
window counters and the 10/50/200 command limits are never consulted by
`canSendMessage`, which maps every non-media type to the `messages`
counters. -/
theorem c4_command_limit_not_enforced :
    (((commandBurstState.userLimits.lookup "u@s.whatsapp.net:text").getD
        freshUserData).commands.filter (fun t => 1000000 - 60 * 1000 < t)).length =
      (limitsFor .commands).perMinute ∧
    (canSendMessage commandBurstState "u@s.whatsapp.net" "command" 1000000).1 =
      Decision.allowed ∧
    (canSendMessage commandBurstState "u@s.whatsapp.net" "text" 1000000).1 =
      Decision.allowed := by decide

/-- C7: a `contains` rule with `caseSensitive` set and keyword `Hello`
does not fire on the message text `Hello`, though the unmodified keyword is
a substring of the unmodified text: the code lowercases the message before
the substring test even for case-sensitive rules. -/
theorem c7_case_sensitive_contains_never_fires :
    jsIncludes "Hello" "Hello" = true ∧
    jsIncludes (jsToLower "Hello") "Hello" = false ∧
    processTriggers [c7Trigger] regexNone c7Md = [] := by decide

/-- C1: the pipeline never asks the rate limiter for admission — a sender
carrying an unexpired block record is processed like any other: the
message is persisted and its trigger response is dispatched. (No call to
`canSendMessage` exists anywhere in the repository; `processMessage` does
not even receive a rate-limiter state.) -/
theorem c1_blocked_sender_still_gets_trigger_responses :
    (isBlocked c1Rl "blocked@s.whatsapp.net" 1000000).1 = true ∧
    ((processMessage regexNone c1World c1Raw 1000000).toOption.map World.sent) =
      some [{ target := "blocked@s.whatsapp.net", text := "Hi there!",
              mentions := [] }] ∧
    ((processMessage regexNone c1World c1Raw 1000000).toOption.map
        (fun w => w.messages.length)) = some 1 := by decide

/-- C9 counterexample: an otherwise well-formed text event with no
`messageTimestamp` makes normalization throw
(`new Date(NaN).toISOString()` raises Invalid time value) instead of
returning a best-effort record. -/
theorem c9_counterexample_missing_timestamp_throws :
    extractMessageData c9Raw "x@s.whatsapp.net" false none =
      .error "Invalid time value" := rfl

/-- C9 (amended): normalization succeeds exactly for raw events whose
timestamp is present and lands inside the ECMAScript Date range — an
absent timestamp, or one whose millisecond value exceeds magnitude
8640000000000000, raises Invalid time value — and for successfully
normalized events a missing message body yields the best-effort record:
kind text, empty content, all media and reply fields empty. -/
theorem c9_amended_normalization : ∀ (raw : RawMessage) (s : String)
    (g : Bool) (j : Option String),
    ((extractMessageData raw s g j).isOk = true ↔
      ∃ t : Int, raw.messageTimestamp = some t ∧
        -8640000000000000 ≤ t * 1000 ∧ t * 1000 ≤ 8640000000000000) ∧
    (∀ md : MsgRecord, extractMessageData raw s g j = .ok md →
      raw.message = none →
      md.message_type = "text" ∧ md.content = some "" ∧ md.media_url = none ∧
      md.media_type = none ∧ md.reply_to = none ∧ md.is_forwarded = false) := by
  intro raw s g j
  constructor
  · cases h : raw.messageTimestamp with
    | none => simp [extractMessageData, h, Except.isOk, Except.toBool]
    | some t =>
      by_cases hr : t * 1000 < -8640000000000000 ∨ 8640000000000000 < t * 1000
      · simp only [extractMessageData, h]
        rw [if_pos hr]
        simp only [Except.isOk, Except.toBool, h, Option.some.injEq]
        constructor
        · intro hfalse; exact absurd hfalse (by simp)
        · intro ⟨t1, ht1, hlo, hhi⟩
          rw [← ht1] at hlo hhi
          exact absurd hr (by omega)
      · simp only [extractMessageData, h]
        rw [if_neg hr]
        simp only [Except.isOk, Except.toBool, h, Option.some.injEq, true_iff]
        exact ⟨t, rfl, by omega, by omega⟩
  · intro md hok hm
    cases h : raw.messageTimestamp with
    | none => simp [extractMessageData, h] at hok
    | some t =>
      simp only [extractMessageData, h] at hok
      by_cases hr : t * 1000 < -8640000000000000 ∨ 8640000000000000 < t * 1000
      · rw [if_pos hr] at hok
        exact Except.noConfusion hok
      · rw [if_neg hr] at hok
        injection hok with hmd
        rw [← hmd]
        simp [detectContent, replyToOf, forwardedOf, hm]

/-- Witness for C9 (amended) at a concrete raw event with a timestamp and
no body. -/
theorem c9_amended_normalization_witness :
    extractMessageData c9OkRaw "x@s.whatsapp.net" false none = .ok c9OkMd ∧
    c9OkMd.content = some "" ∧
    (extractMessageData c9OkRaw "x@s.whatsapp.net" false none).isOk = true ∧
    extractMessageData c9FarRaw "x@s.whatsapp.net" false none =
      .error "Invalid time value" :=
  ⟨rfl,
   ((c9_amended_normalization c9OkRaw "x@s.whatsapp.net" false none).2
      c9OkMd rfl rfl).2.1,
   (c9_amended_normalization c9OkRaw "x@s.whatsapp.net" false none).1.mpr
     ⟨5, rfl, by decide, by decide⟩,
   rfl⟩

/-- C8: whenever the stored five-minute message count of the sender —
current message included — exceeds the spam threshold, the pipeline
appends exactly one spam log row with severity medium and action flagged,
and appends one warning send carrying the sender in its mentions exactly
when the conversation is a group. -/
theorem c8_spam_escalation : ∀ (regexSem : RegexSem) (w : World)
    (raw : RawMessage) (now : Int) (md : MsgRecord),
    raw.key.fromMe = false →
    normalizeEvent raw = .ok md →
    spamThreshold < recentCount (saveMessage w.messages md) md.sender_jid now →
    ∃ w1, processMessage regexSem w raw now = .ok w1 ∧
      w1.spamLogs = w.spamLogs ++
        [{ user_jid := md.sender_jid, message_id := md.message_id,
           reason := "High message frequency", severity := "medium",
           action := "flagged" }] ∧
      w1.sent = w.sent ++ processTriggers w.triggers regexSem md ++
        (if md.is_group then
          [{ target := md.jid, text := spamWarnText md.sender_jid,
             mentions := [md.sender_jid] }]
         else []) := by
  intro regexSem w raw now md hf hn hc
  refine ⟨{ w with
      messages := saveMessage w.messages md
      users := updateUserActivity
        (createUser w.users (jsOrS raw.key.participant raw.key.remoteJid))
        (jsOrS raw.key.participant raw.key.remoteJid)
      sent := w.sent ++ processTriggers w.triggers regexSem md ++
        (checkSpam (saveMessage w.messages md) md now).2
      spamLogs := w.spamLogs ++
        (checkSpam (saveMessage w.messages md) md now).1 }, ?_, ?_, ?_⟩
  · simp only [processMessage, hf, hn]
    rfl
  · simp [checkSpam, hc]
  · simp [checkSpam, hc]

/-- Witness for C8: the sixth message inside five minutes from a group
sender produces the one medium/flagged spam row and the one group warning
mentioning the sender. -/
theorem c8_spam_escalation_witness :
    ((processMessage regexNone c8World c8Raw 1000000).toOption.map
        World.spamLogs) =
      some [{ user_jid := "spammer@s.whatsapp.net", message_id := "S6",
              reason := "High message frequency", severity := "medium",
              action := "flagged" }] ∧
    ((processMessage regexNone c8World c8Raw 1000000).toOption.map World.sent) =
      some [{ target := "grp@g.us",
              text := spamWarnText "spammer@s.whatsapp.net",
              mentions := ["spammer@s.whatsapp.net"] }] := by
  obtain ⟨w1, h1, h2, h3⟩ :=
    c8_spam_escalation regexNone c8World c8Raw 1000000 c8Md rfl rfl (by decide)
  rw [h1]
  constructor
  · simp only [Except.toOption, Option.map]
    rw [h2]
    decide
  · simp only [Except.toOption, Option.map]
    rw [h3]
    decide
